import Mathlib

/- Verification of the dump-automation validator (src/app.py).

   Shallow embedding of the DumpFileValidator class: the Rule Engine
   (validate_daily_file, validate_full_file, check_id_column) and the
   Boundary Comparator (compare_validation_files).

   A record is modelled as an association list from column names to
   integer-coded cell values: the 0/1 flags IsCreated and IsModified are
   integers in the source, and the parsed UTC timestamps DateCreated and
   DateModified are only ever compared by order against the fixed window
   bounds, so they are coded as integers as well.  A DataFrame carries its
   column list and its rows; a lookup of a column on a row returns the
   stored value.  Fallible code is embedded in the Except monad: the two
   runtime exceptions the comparator can raise (an IndexError from iloc on
   an empty frame, and the UnboundLocalError from the debug block that
   reads single_row_match outside the one branch that assigns it) appear
   as the error cases. -/

namespace DumpApp

/-- A single record: column name to integer-coded cell value. -/
abbrev RowRec := List (String × Int)

/-- Cell lookup, raw_df row access by column name. -/
def getCell (r : RowRec) (c : String) : Int :=
  match r.find? (fun p => p.1 == c) with
  | some p => p.2
  | none => 0

/-- A tabular dataset: the declared column set and the ordered rows. -/
structure DataFrame where
  cols : List String
  rows : List RowRec

/-- One manifest row: table name, expected row count, declared window. -/
structure ManifestRow where
  table_name : String
  row_count : Nat
  time_start : Int
  time_end : Int

/-- Message of the row-count rule (f-string at app.py line 29 and 69). -/
def rowCountMsg (expected got : Nat) : String :=
  "Row count mismatch: expected " ++ toString expected ++ ", got " ++ toString got

/-- Message of the identifier rule (app.py lines 34 and 74). -/
def noIdMsg : String := "No valid ID column found"

/-- Message of the daily IsCreated rule (app.py line 41). -/
def isCreatedMsg (n : Nat) : String :=
  "Found " ++ toString n ++ " invalid IsCreated values"

/-- Message of the daily IsModified rule (app.py line 48). -/
def isModifiedMsg (n : Nat) : String :=
  "Found " ++ toString n ++ " invalid IsModified values"

/-- Message of the daily time-window rule (app.py line 60). -/
def dateWindowMsg (n : Nat) : String :=
  "Found " ++ toString n ++ " records outside time window"

/-- Message of the full-mode IsCreated rule (app.py line 80). -/
def fullCreatedMsg (n : Nat) : String :=
  "Found " ++ toString n ++ " rows with IsCreated != 1"

/-- Message of the full-mode IsModified rule (app.py line 86). -/
def fullModifiedMsg (n : Nat) : String :=
  "Found " ++ toString n ++ " rows with IsModified != 0"

/-- The recognized identifier column names, in preference order
(app.py line 20). -/
def id_columns : List String := ["ID", "Id", "DataID", "ProductOptionDataID"]

/-- check_id_column (app.py lines 19-22): collects the recognized names
present among the columns and returns whether any was found together with
the first one found. -/
def check_id_column (df : DataFrame) : Bool × Option String :=
  let found_cols := id_columns.filter (fun c => df.cols.contains c)
  (decide (0 < found_cols.length), found_cols.head?)

/-- Rows counted by the daily IsCreated rule (app.py lines 38-39):
DateCreated at or after window start and IsCreated unequal to 1. -/
def invalid_created_daily (ws : Int) (rows : List RowRec) : List RowRec :=
  rows.filter (fun r =>
    decide (ws ≤ getCell r "DateCreated") && decide (getCell r "IsCreated" ≠ 1))

/-- Rows counted by the daily IsModified rule (app.py lines 45-46). -/
def invalid_modified_daily (ws : Int) (rows : List RowRec) : List RowRec :=
  rows.filter (fun r =>
    decide (ws ≤ getCell r "DateModified") && decide (getCell r "IsModified" ≠ 1))

/-- The date_criteria mask (app.py lines 52-57): the record lies in the
half-open window by DateCreated or by DateModified. -/
def date_criteria (ws we : Int) (r : RowRec) : Bool :=
  (decide (ws ≤ getCell r "DateCreated") && decide (getCell r "DateCreated" < we)) ||
  (decide (ws ≤ getCell r "DateModified") && decide (getCell r "DateModified" < we))

/-- Rows counted by the daily time-window rule (app.py line 58): the
records failing date_criteria. -/
def invalid_dates (ws we : Int) (rows : List RowRec) : List RowRec :=
  rows.filter (fun r => !date_criteria ws we r)

/-- Rows counted by the full-mode IsCreated rule (app.py line 78). -/
def invalid_created_full (rows : List RowRec) : List RowRec :=
  rows.filter (fun r => decide (getCell r "IsCreated" ≠ 1))

/-- Rows counted by the full-mode IsModified rule (app.py line 84). -/
def invalid_modified_full (rows : List RowRec) : List RowRec :=
  rows.filter (fun r => decide (getCell r "IsModified" ≠ 0))

/-- validate_daily_file (app.py lines 24-62).  ws and we are the
window_start and window_end fields set in the constructor. -/
def validate_daily_file (ws we : Int) (raw : DataFrame) (mrow : ManifestRow) :
    Bool × List String :=
  let r1 := if raw.rows.length ≠ mrow.row_count then
              [rowCountMsg mrow.row_count raw.rows.length] else []
  let r2 := if (check_id_column raw).1 then [] else [noIdMsg]
  let r3 := if "IsCreated" ∈ raw.cols ∧ "DateCreated" ∈ raw.cols then
              if (invalid_created_daily ws raw.rows).length ≠ 0 then
                [isCreatedMsg (invalid_created_daily ws raw.rows).length] else []
            else []
  let r4 := if "IsModified" ∈ raw.cols ∧ "DateModified" ∈ raw.cols then
              if (invalid_modified_daily ws raw.rows).length ≠ 0 then
                [isModifiedMsg (invalid_modified_daily ws raw.rows).length] else []
            else []
  let r5 := if "DateCreated" ∈ raw.cols ∧ "DateModified" ∈ raw.cols then
              if (invalid_dates ws we raw.rows).length ≠ 0 then
                [dateWindowMsg (invalid_dates ws we raw.rows).length] else []
            else []
  let results := r1 ++ r2 ++ r3 ++ r4 ++ r5
  (results.length == 0, results)

/-- validate_full_file (app.py lines 64-88). -/
def validate_full_file (raw : DataFrame) (mrow : ManifestRow) :
    Bool × List String :=
  let r1 := if raw.rows.length ≠ mrow.row_count then
              [rowCountMsg mrow.row_count raw.rows.length] else []
  let r2 := if (check_id_column raw).1 then [] else [noIdMsg]
  let r3 := if "IsCreated" ∈ raw.cols then
              if (invalid_created_full raw.rows).length ≠ 0 then
                [fullCreatedMsg (invalid_created_full raw.rows).length] else []
            else []
  let r4 := if "IsModified" ∈ raw.cols then
              if (invalid_modified_full raw.rows).length ≠ 0 then
                [fullModifiedMsg (invalid_modified_full raw.rows).length] else []
            else []
  let results := r1 ++ r2 ++ r3 ++ r4
  (results.length == 0, results)

/-- The exception raised at app.py line 128: the debug block reads
single_row_match, which is assigned only in the one-row branch (line 97)
that returns before line 128 can run. -/
def unboundLocalMsg : String :=
  "UnboundLocalError: local variable single_row_match referenced before assignment"

/-- The exception raised by iloc indexing on an empty frame
(app.py lines 109-110 with an empty raw_df). -/
def indexErrorMsg : String :=
  "IndexError: single positional indexer is out-of-bounds"

/-- compare_validation_files (app.py lines 90-137).  Each dataset is its
ordered list of rows; a row is opaque here, compared by the full-record
equality that Series.equals performs.  The value is ok on the return
statements of the source and error where the source raises. -/
def compare_validation_files {α : Type} [DecidableEq α] (raw val : List α) :
    Except String (Bool × String) :=
  if val.length = 0 then
    .ok (true, "Validation file is empty, no changes made")
  else if raw.length = 1 ∧ val.length = 1 then
    match raw.head?, val.head? with
    | some r, some v =>
        if r = v then .ok (true, "Validation check passed")
        else .ok (false, "Validation and raw row mismatch")
    | _, _ => .error indexErrorMsg
  else if val.length ≠ 2 then
    .ok (false, "Validation file should contain exactly 2 data rows (first and last), found "
          ++ toString val.length ++ " rows")
  else
    match raw.head?, raw.getLast?, val.head?, val[1]? with
    | some r0, some rl, some v0, some v1 =>
        if r0 = v1 ∨ rl = v0 then .ok (true, "Validation file check passed")
        else .error unboundLocalMsg
    | _, _, _, _ => .error indexErrorMsg


theorem str_assoc (a b c : String) : a ++ (b ++ c) = (a ++ b) ++ c := by
  apply String.ext
  simp [String.data_append]

theorem append_ne_of_take_front (p₁ t₁ p₂ t₂ : String) (k : Nat)
    (h₁ : k ≤ p₁.data.length) (h₂ : k ≤ p₂.data.length)
    (hne : p₁.data.take k ≠ p₂.data.take k) : p₁ ++ t₁ ≠ p₂ ++ t₂ := by
  intro h
  apply hne
  have hd := congrArg String.data h
  rw [String.data_append, String.data_append] at hd
  calc p₁.data.take k = (p₁.data ++ t₁.data).take k :=
        (List.take_append_of_le_length h₁).symm
    _ = (p₂.data ++ t₂.data).take k := by rw [hd]
    _ = p₂.data.take k := List.take_append_of_le_length h₂

theorem append_ne_of_take_back (t₁ s₁ t₂ s₂ : String) (k : Nat)
    (h₁ : k ≤ s₁.data.reverse.length) (h₂ : k ≤ s₂.data.reverse.length)
    (hne : s₁.data.reverse.take k ≠ s₂.data.reverse.take k) : t₁ ++ s₁ ≠ t₂ ++ s₂ := by
  intro h
  apply hne
  have hd := congrArg (fun s => s.data.reverse) h
  simp only [String.data_append, List.reverse_append] at hd
  calc s₁.data.reverse.take k = (s₁.data.reverse ++ t₁.data.reverse).take k :=
        (List.take_append_of_le_length h₁).symm
    _ = (s₂.data.reverse ++ t₂.data.reverse).take k := by rw [hd]
    _ = s₂.data.reverse.take k := List.take_append_of_le_length h₂

theorem lit_ne_append (c p t : String) (k : Nat)
    (h₂ : k ≤ p.data.length)
    (hne : c.data.take k ≠ p.data.take k) : c ≠ p ++ t := by
  intro h
  apply hne
  have hd := congrArg String.data h
  rw [String.data_append] at hd
  calc c.data.take k = (p.data ++ t.data).take k := by rw [hd]
    _ = p.data.take k := List.take_append_of_le_length h₂

theorem rowCountMsg_ne_noIdMsg (e g : Nat) : rowCountMsg e g ≠ noIdMsg := by
  simp only [rowCountMsg, ← str_assoc]
  intro h
  exact lit_ne_append noIdMsg "Row count mismatch: expected " _ 1 (by decide) (by decide) h.symm

theorem noIdMsg_ne_rowCountMsg (e g : Nat) : noIdMsg ≠ rowCountMsg e g :=
  (rowCountMsg_ne_noIdMsg e g).symm

theorem isCreatedMsg_ne_isModifiedMsg (m n : Nat) : isCreatedMsg m ≠ isModifiedMsg n := by
  simp only [isCreatedMsg, isModifiedMsg]
  exact append_ne_of_take_back _ _ _ _ 10 (by decide) (by decide) (by decide)

theorem isCreatedMsg_ne_dateWindowMsg (m n : Nat) : isCreatedMsg m ≠ dateWindowMsg n := by
  simp only [isCreatedMsg, dateWindowMsg]
  exact append_ne_of_take_back _ _ _ _ 1 (by decide) (by decide) (by decide)

theorem isModifiedMsg_ne_dateWindowMsg (m n : Nat) : isModifiedMsg m ≠ dateWindowMsg n := by
  simp only [isModifiedMsg, dateWindowMsg]
  exact append_ne_of_take_back _ _ _ _ 1 (by decide) (by decide) (by decide)

theorem fullCreatedMsg_ne_fullModifiedMsg (m n : Nat) : fullCreatedMsg m ≠ fullModifiedMsg n := by
  simp only [fullCreatedMsg, fullModifiedMsg]
  exact append_ne_of_take_back _ _ _ _ 1 (by decide) (by decide) (by decide)

theorem rowCountMsg_ne_isCreatedMsg (e g n : Nat) : rowCountMsg e g ≠ isCreatedMsg n := by
  simp only [rowCountMsg, isCreatedMsg, ← str_assoc]
  exact append_ne_of_take_front _ _ _ _ 1 (by decide) (by decide) (by decide)

theorem rowCountMsg_ne_isModifiedMsg (e g n : Nat) : rowCountMsg e g ≠ isModifiedMsg n := by
  simp only [rowCountMsg, isModifiedMsg, ← str_assoc]
  exact append_ne_of_take_front _ _ _ _ 1 (by decide) (by decide) (by decide)

theorem rowCountMsg_ne_dateWindowMsg (e g n : Nat) : rowCountMsg e g ≠ dateWindowMsg n := by
  simp only [rowCountMsg, dateWindowMsg, ← str_assoc]
  exact append_ne_of_take_front _ _ _ _ 1 (by decide) (by decide) (by decide)

theorem rowCountMsg_ne_fullCreatedMsg (e g n : Nat) : rowCountMsg e g ≠ fullCreatedMsg n := by
  simp only [rowCountMsg, fullCreatedMsg, ← str_assoc]
  exact append_ne_of_take_front _ _ _ _ 1 (by decide) (by decide) (by decide)

theorem rowCountMsg_ne_fullModifiedMsg (e g n : Nat) : rowCountMsg e g ≠ fullModifiedMsg n := by
  simp only [rowCountMsg, fullModifiedMsg, ← str_assoc]
  exact append_ne_of_take_front _ _ _ _ 1 (by decide) (by decide) (by decide)

theorem noIdMsg_ne_isCreatedMsg (n : Nat) : noIdMsg ≠ isCreatedMsg n := by
  simp only [isCreatedMsg, ← str_assoc]
  exact lit_ne_append _ _ _ 1 (by decide) (by decide)

theorem noIdMsg_ne_isModifiedMsg (n : Nat) : noIdMsg ≠ isModifiedMsg n := by
  simp only [isModifiedMsg, ← str_assoc]
  exact lit_ne_append _ _ _ 1 (by decide) (by decide)

theorem noIdMsg_ne_dateWindowMsg (n : Nat) : noIdMsg ≠ dateWindowMsg n := by
  simp only [dateWindowMsg, ← str_assoc]
  exact lit_ne_append _ _ _ 1 (by decide) (by decide)

theorem noIdMsg_ne_fullCreatedMsg (n : Nat) : noIdMsg ≠ fullCreatedMsg n := by
  simp only [fullCreatedMsg, ← str_assoc]
  exact lit_ne_append _ _ _ 1 (by decide) (by decide)

theorem noIdMsg_ne_fullModifiedMsg (n : Nat) : noIdMsg ≠ fullModifiedMsg n := by
  simp only [fullModifiedMsg, ← str_assoc]
  exact lit_ne_append _ _ _ 1 (by decide) (by decide)

theorem not_mem_ite_cons {α : Type} {x y : α} (c : Prop) [Decidable c] (h : x ≠ y) :
    x ∉ (if c then [y] else []) := by
  split
  · simp [h]
  · simp

theorem not_mem_ite_nil {α : Type} {x y : α} (c : Prop) [Decidable c] (h : x ≠ y) :
    x ∉ (if c then [] else [y]) := by
  split
  · simp
  · simp [h]

theorem not_mem_ite_ite {α : Type} {x y : α} (c d : Prop) [Decidable c] [Decidable d] (h : x ≠ y) :
    x ∉ (if c then (if d then [y] else []) else []) := by
  split
  · exact not_mem_ite_cons _ h
  · simp


theorem compare_two_row {α : Type} [DecidableEq α] (raw : List α) (r0 rl v0 v1 : α)
    (h0 : raw.head? = some r0) (hl : raw.getLast? = some rl) :
    compare_validation_files raw [v0, v1] =
      if r0 = v1 ∨ rl = v0 then .ok (true, "Validation file check passed")
      else .error unboundLocalMsg := by
  simp [compare_validation_files, h0, hl]

/-- Claim C1: on a 2-row validation dataset where neither admissible
pairing holds, the comparator does not return the documented defect pair;
it raises, because the debug block at app.py line 128 reads the local
variable single_row_match that no path to that line has assigned. -/
theorem compare_neither_pairing_raises {α : Type} [DecidableEq α] (raw : List α)
    (r0 rl v0 v1 : α) (h0 : raw.head? = some r0) (hl : raw.getLast? = some rl)
    (h1 : r0 ≠ v1) (h2 : rl ≠ v0) :
    compare_validation_files raw [v0, v1] = Except.error unboundLocalMsg := by
  rw [compare_two_row raw r0 rl v0 v1 h0 hl, if_neg]
  rintro (h | h)
  exacts [h1 h, h2 h]

theorem compare_neither_pairing_raises_witness :
    compare_validation_files [1, 2] [7, 8] = Except.error unboundLocalMsg :=
  compare_neither_pairing_raises [1, 2] 1 2 7 8 rfl rfl (by decide) (by decide)

/-- Claim C2: with raw rows r0..rn for n of at least 1, the cross
pairing, validation rows last-then-first, is accepted as valid; the
straight pairing, validation rows first-then-last with distinct boundary
rows, is never accepted, but instead of returning invalid the comparator
raises through the same unbound single_row_match debug block. -/
theorem compare_cross_accepted_straight_raises {α : Type} [DecidableEq α]
    (r0 rn : α) (mid : List α) :
    compare_validation_files (r0 :: (mid ++ [rn])) [rn, r0] =
      Except.ok (true, "Validation file check passed") ∧
    (r0 ≠ rn → compare_validation_files (r0 :: (mid ++ [rn])) [r0, rn] =
      Except.error unboundLocalMsg) := by
  have h0 : (r0 :: (mid ++ [rn])).head? = some r0 := rfl
  have hl : (r0 :: (mid ++ [rn])).getLast? = some rn := by
    have h : r0 :: (mid ++ [rn]) = (r0 :: mid) ++ [rn] := rfl
    rw [h]
    exact List.getLast?_concat _
  constructor
  · rw [compare_two_row _ r0 rn rn r0 h0 hl, if_pos (Or.inl rfl)]
  · intro hne
    rw [compare_two_row _ r0 rn r0 rn h0 hl, if_neg]
    rintro (h | h)
    · exact hne h
    · exact hne h.symm

theorem compare_cross_accepted_straight_raises_witness :
    compare_validation_files [1, 2] [2, 1] = Except.ok (true, "Validation file check passed") ∧
    compare_validation_files [1, 2] [1, 2] = Except.error unboundLocalMsg :=
  ⟨(compare_cross_accepted_straight_raises 1 2 []).1,
   (compare_cross_accepted_straight_raises 1 2 []).2 (by decide)⟩

/-- Claim C9: in the 2-row branch acceptance is disjunctive: if the
second validation row equals the first raw row, or the first validation
row equals the last raw row, the comparator returns valid, regardless
of the other validation row. -/
theorem compare_two_row_accepts_either {α : Type} [DecidableEq α] (raw : List α)
    (r0 rl v0 v1 : α) (h0 : raw.head? = some r0) (hl : raw.getLast? = some rl)
    (h : v1 = r0 ∨ v0 = rl) :
    compare_validation_files raw [v0, v1] = Except.ok (true, "Validation file check passed") := by
  rw [compare_two_row raw r0 rl v0 v1 h0 hl, if_pos]
  rcases h with h | h
  · exact Or.inl h.symm
  · exact Or.inr h.symm

theorem compare_two_row_accepts_either_witness :
    compare_validation_files [5, 6, 7] [7, 99] = Except.ok (true, "Validation file check passed") :=
  compare_two_row_accepts_either [5, 6, 7] 5 7 7 99 rfl rfl (Or.inr rfl)

/-- Claim C10: when the validation dataset has exactly 1 row and the
raw dataset has more than 1 row, the single-row branch does not apply
and the comparator returns invalid with the message naming the count
of 1 found rows. -/
theorem compare_one_row_validation_rejected {α : Type} [DecidableEq α]
    (raw val : List α) (hv : val.length = 1) (hr : 1 < raw.length) :
    compare_validation_files raw val =
      Except.ok (false,
        "Validation file should contain exactly 2 data rows (first and last), found 1 rows") := by
  have hr1 : ¬ raw.length = 1 := by omega
  simp [compare_validation_files, hv, hr1]
  rfl

theorem compare_one_row_validation_rejected_witness :
    compare_validation_files [1, 2] [9] =
      Except.ok (false,
        "Validation file should contain exactly 2 data rows (first and last), found 1 rows") :=
  compare_one_row_validation_rejected [1, 2] [9] rfl (by decide)


theorem mem_daily_iff (ws we : Int) (raw : DataFrame) (m : ManifestRow) (x : String) :
    x ∈ (validate_daily_file ws we raw m).2 ↔
      (x ∈ (if raw.rows.length ≠ m.row_count then
              [rowCountMsg m.row_count raw.rows.length] else []) ∨
       x ∈ (if (check_id_column raw).1 then ([] : List String) else [noIdMsg]) ∨
       x ∈ (if "IsCreated" ∈ raw.cols ∧ "DateCreated" ∈ raw.cols then
              if (invalid_created_daily ws raw.rows).length ≠ 0 then
                [isCreatedMsg (invalid_created_daily ws raw.rows).length] else []
            else []) ∨
       x ∈ (if "IsModified" ∈ raw.cols ∧ "DateModified" ∈ raw.cols then
              if (invalid_modified_daily ws raw.rows).length ≠ 0 then
                [isModifiedMsg (invalid_modified_daily ws raw.rows).length] else []
            else []) ∨
       x ∈ (if "DateCreated" ∈ raw.cols ∧ "DateModified" ∈ raw.cols then
              if (invalid_dates ws we raw.rows).length ≠ 0 then
                [dateWindowMsg (invalid_dates ws we raw.rows).length] else []
            else [])) := by
  simp only [validate_daily_file, List.mem_append, or_assoc]

theorem mem_full_iff (raw : DataFrame) (m : ManifestRow) (x : String) :
    x ∈ (validate_full_file raw m).2 ↔
      (x ∈ (if raw.rows.length ≠ m.row_count then
              [rowCountMsg m.row_count raw.rows.length] else []) ∨
       x ∈ (if (check_id_column raw).1 then ([] : List String) else [noIdMsg]) ∨
       x ∈ (if "IsCreated" ∈ raw.cols then
              if (invalid_created_full raw.rows).length ≠ 0 then
                [fullCreatedMsg (invalid_created_full raw.rows).length] else []
            else []) ∨
       x ∈ (if "IsModified" ∈ raw.cols then
              if (invalid_modified_full raw.rows).length ≠ 0 then
                [fullModifiedMsg (invalid_modified_full raw.rows).length] else []
            else [])) := by
  simp only [validate_full_file, List.mem_append, or_assoc]

/-- Claim C5: in both daily and full mode, the outcome carries the
row-count defect, whose message states the expected and the actual
count, exactly when the number of raw rows differs from the manifest
row count. -/
theorem row_count_rule (ws we : Int) (raw : DataFrame) (m : ManifestRow) :
    (rowCountMsg m.row_count raw.rows.length ∈ (validate_daily_file ws we raw m).2 ↔
      raw.rows.length ≠ m.row_count) ∧
    (rowCountMsg m.row_count raw.rows.length ∈ (validate_full_file raw m).2 ↔
      raw.rows.length ≠ m.row_count) := by
  constructor
  · rw [mem_daily_iff]
    constructor
    · rintro (h | h | h | h | h)
      · by_cases hc : raw.rows.length ≠ m.row_count
        · exact hc
        · rw [if_neg hc] at h
          exact absurd h (List.not_mem_nil _)
      · exact absurd h (not_mem_ite_nil _ (rowCountMsg_ne_noIdMsg _ _))
      · exact absurd h (not_mem_ite_ite _ _ (rowCountMsg_ne_isCreatedMsg _ _ _))
      · exact absurd h (not_mem_ite_ite _ _ (rowCountMsg_ne_isModifiedMsg _ _ _))
      · exact absurd h (not_mem_ite_ite _ _ (rowCountMsg_ne_dateWindowMsg _ _ _))
    · intro hne
      left
      rw [if_pos hne]
      exact List.mem_singleton.mpr rfl
  · rw [mem_full_iff]
    constructor
    · rintro (h | h | h | h)
      · by_cases hc : raw.rows.length ≠ m.row_count
        · exact hc
        · rw [if_neg hc] at h
          exact absurd h (List.not_mem_nil _)
      · exact absurd h (not_mem_ite_nil _ (rowCountMsg_ne_noIdMsg _ _))
      · exact absurd h (not_mem_ite_ite _ _ (rowCountMsg_ne_fullCreatedMsg _ _ _))
      · exact absurd h (not_mem_ite_ite _ _ (rowCountMsg_ne_fullModifiedMsg _ _ _))
    · intro hne
      left
      rw [if_pos hne]
      exact List.mem_singleton.mpr rfl


theorem head?_filter_eq_find? {α : Type} (p : α → Bool) (l : List α) :
    (l.filter p).head? = l.find? p := by
  induction l with
  | nil => rfl
  | cons a t ih =>
    by_cases h : p a
    · rw [List.filter_cons, if_pos h, List.find?_cons_of_pos _ h]
      rfl
    · rw [List.filter_cons, if_neg h, List.find?_cons_of_neg _ (by simpa using h)]
      exact ih

theorem check_id_found_iff (raw : DataFrame) :
    (check_id_column raw).1 = true ↔ ∃ c ∈ id_columns, c ∈ raw.cols := by
  simp [check_id_column, List.length_pos_iff_exists_mem, List.mem_filter]

/-- Claim C7: identifier detection returns the first present column in
the fixed preference order ID, Id, DataID, ProductOptionDataID; a
dataset with columns Id and DataID selects Id; and both modes report
the defect No valid ID column found exactly when none of the four names
is among the columns of the dataset. -/
theorem id_column_rule (ws we : Int) (raw : DataFrame) (m : ManifestRow) :
    ((check_id_column raw).2 = id_columns.find? (fun c => raw.cols.contains c)) ∧
    ((check_id_column raw).1 = true ↔ ∃ c ∈ id_columns, c ∈ raw.cols) ∧
    ((check_id_column ⟨["Id", "DataID"], []⟩).2 = some "Id") ∧
    (noIdMsg ∈ (validate_daily_file ws we raw m).2 ↔ ∀ c ∈ id_columns, c ∉ raw.cols) ∧
    (noIdMsg ∈ (validate_full_file raw m).2 ↔ ∀ c ∈ id_columns, c ∉ raw.cols) := by
  have hnone : ¬ (∃ c ∈ id_columns, c ∈ raw.cols) ↔ ∀ c ∈ id_columns, c ∉ raw.cols := by
    push_neg
    rfl
  refine ⟨head?_filter_eq_find? _ _, check_id_found_iff raw, rfl, ?_, ?_⟩
  · rw [mem_daily_iff]
    constructor
    · rintro (h | h | h | h | h)
      · exact absurd h (not_mem_ite_cons _ (noIdMsg_ne_rowCountMsg _ _))
      · by_cases hb : (check_id_column raw).1 = true
        · rw [if_pos hb] at h
          exact absurd h (List.not_mem_nil _)
        · rw [← hnone]
          rw [← check_id_found_iff raw]
          exact hb
      · exact absurd h (not_mem_ite_ite _ _ (noIdMsg_ne_isCreatedMsg _))
      · exact absurd h (not_mem_ite_ite _ _ (noIdMsg_ne_isModifiedMsg _))
      · exact absurd h (not_mem_ite_ite _ _ (noIdMsg_ne_dateWindowMsg _))
    · intro hnot
      right; left
      have hb : ¬ (check_id_column raw).1 = true := by
        rw [check_id_found_iff raw, hnone]
        exact hnot
      rw [if_neg (by simpa using hb)]
      exact List.mem_singleton.mpr rfl
  · rw [mem_full_iff]
    constructor
    · rintro (h | h | h | h)
      · exact absurd h (not_mem_ite_cons _ (noIdMsg_ne_rowCountMsg _ _))
      · by_cases hb : (check_id_column raw).1 = true
        · rw [if_pos hb] at h
          exact absurd h (List.not_mem_nil _)
        · rw [← hnone, ← check_id_found_iff raw]
          exact hb
      · exact absurd h (not_mem_ite_ite _ _ (noIdMsg_ne_fullCreatedMsg _))
      · exact absurd h (not_mem_ite_ite _ _ (noIdMsg_ne_fullModifiedMsg _))
    · intro hnot
      right; left
      have hb : ¬ (check_id_column raw).1 = true := by
        rw [check_id_found_iff raw, hnone]
        exact hnot
      rw [if_neg (by simpa using hb)]
      exact List.mem_singleton.mpr rfl


/-- Claim C3: in daily mode, when both DateCreated and DateModified
columns are present, the outcome carries the aggregated time-window
defect counting exactly the records that satisfy neither half-open
window condition, and carries no such defect when that count is zero;
when either column is absent the rule is skipped and no time-window
defect of any count is reported. -/
theorem daily_time_window_rule (ws we : Int) (raw : DataFrame) (m : ManifestRow) :
    (("DateCreated" ∈ raw.cols ∧ "DateModified" ∈ raw.cols) →
      ((invalid_dates ws we raw.rows).length ≠ 0 →
        dateWindowMsg (invalid_dates ws we raw.rows).length ∈
          (validate_daily_file ws we raw m).2) ∧
      ((invalid_dates ws we raw.rows).length = 0 →
        ∀ n, dateWindowMsg n ∉ (validate_daily_file ws we raw m).2)) ∧
    (¬ ("DateCreated" ∈ raw.cols ∧ "DateModified" ∈ raw.cols) →
      ∀ n, dateWindowMsg n ∉ (validate_daily_file ws we raw m).2) := by
  constructor
  · intro hpres
    constructor
    · intro hk
      rw [mem_daily_iff]
      right; right; right; right
      rw [if_pos hpres, if_pos hk]
      exact List.mem_singleton.mpr rfl
    · intro hk n hmem
      rw [mem_daily_iff] at hmem
      rcases hmem with h | h | h | h | h
      · exact absurd h (not_mem_ite_cons _ ((rowCountMsg_ne_dateWindowMsg _ _ _).symm))
      · exact absurd h (not_mem_ite_nil _ ((noIdMsg_ne_dateWindowMsg _).symm))
      · exact absurd h (not_mem_ite_ite _ _ ((isCreatedMsg_ne_dateWindowMsg _ _).symm))
      · exact absurd h (not_mem_ite_ite _ _ ((isModifiedMsg_ne_dateWindowMsg _ _).symm))
      · rw [if_pos hpres, if_neg (by omega)] at h
        exact absurd h (List.not_mem_nil _)
  · intro hpres n hmem
    rw [mem_daily_iff] at hmem
    rcases hmem with h | h | h | h | h
    · exact absurd h (not_mem_ite_cons _ ((rowCountMsg_ne_dateWindowMsg _ _ _).symm))
    · exact absurd h (not_mem_ite_nil _ ((noIdMsg_ne_dateWindowMsg _).symm))
    · exact absurd h (not_mem_ite_ite _ _ ((isCreatedMsg_ne_dateWindowMsg _ _).symm))
    · exact absurd h (not_mem_ite_ite _ _ ((isModifiedMsg_ne_dateWindowMsg _ _).symm))
    · rw [if_neg hpres] at h
      exact absurd h (List.not_mem_nil _)

theorem daily_time_window_rule_witness :
    dateWindowMsg 1 ∈
      (validate_daily_file 0 10 ⟨["DateCreated", "DateModified"],
        [[("DateCreated", 50), ("DateModified", 50)]]⟩ ⟨"t", 1, 0, 10⟩).2 := by
  have h := (daily_time_window_rule 0 10 ⟨["DateCreated", "DateModified"],
    [[("DateCreated", 50), ("DateModified", 50)]]⟩ ⟨"t", 1, 0, 10⟩).1 (by decide)
  exact h.1 (by decide)

/-- Claim C4: in full mode, independent of date columns, the outcome
carries one aggregated defect counting the records with IsCreated
unequal to 1 whenever the IsCreated column is present and such records
exist, and one aggregated defect counting the records with IsModified
unequal to 0 whenever the IsModified column is present and such records
exist; an absent column produces no such defect. -/
theorem full_flag_invariants (raw : DataFrame) (m : ManifestRow) :
    ("IsCreated" ∈ raw.cols → (invalid_created_full raw.rows).length ≠ 0 →
       fullCreatedMsg (invalid_created_full raw.rows).length ∈ (validate_full_file raw m).2) ∧
    ("IsCreated" ∉ raw.cols → ∀ n, fullCreatedMsg n ∉ (validate_full_file raw m).2) ∧
    ("IsModified" ∈ raw.cols → (invalid_modified_full raw.rows).length ≠ 0 →
       fullModifiedMsg (invalid_modified_full raw.rows).length ∈ (validate_full_file raw m).2) ∧
    ("IsModified" ∉ raw.cols → ∀ n, fullModifiedMsg n ∉ (validate_full_file raw m).2) := by
  refine ⟨?_, ?_, ?_, ?_⟩
  · intro hc hk
    rw [mem_full_iff]
    right; right; left
    rw [if_pos hc, if_pos hk]
    exact List.mem_singleton.mpr rfl
  · intro hc n hmem
    rw [mem_full_iff] at hmem
    rcases hmem with h | h | h | h
    · exact absurd h (not_mem_ite_cons _ ((rowCountMsg_ne_fullCreatedMsg _ _ _).symm))
    · exact absurd h (not_mem_ite_nil _ ((noIdMsg_ne_fullCreatedMsg _).symm))
    · rw [if_neg hc] at h
      exact absurd h (List.not_mem_nil _)
    · exact absurd h (not_mem_ite_ite _ _ (fullCreatedMsg_ne_fullModifiedMsg _ _))
  · intro hc hk
    rw [mem_full_iff]
    right; right; right
    rw [if_pos hc, if_pos hk]
    exact List.mem_singleton.mpr rfl
  · intro hc n hmem
    rw [mem_full_iff] at hmem
    rcases hmem with h | h | h | h
    · exact absurd h (not_mem_ite_cons _ ((rowCountMsg_ne_fullModifiedMsg _ _ _).symm))
    · exact absurd h (not_mem_ite_nil _ ((noIdMsg_ne_fullModifiedMsg _).symm))
    · exact absurd h (not_mem_ite_ite _ _ ((fullCreatedMsg_ne_fullModifiedMsg _ _).symm))
    · rw [if_neg hc] at h
      exact absurd h (List.not_mem_nil _)

theorem full_flag_invariants_witness :
    fullCreatedMsg 1 ∈
      (validate_full_file ⟨["IsCreated", "IsModified", "ID"],
        [[("IsCreated", 0), ("IsModified", 5)]]⟩ ⟨"t", 1, 0, 10⟩).2 :=
  (full_flag_invariants ⟨["IsCreated", "IsModified", "ID"],
    [[("IsCreated", 0), ("IsModified", 5)]]⟩ ⟨"t", 1, 0, 10⟩).1 (by decide) (by decide)

/-- Claim C6: in daily mode with IsCreated and DateCreated present, a
record whose DateCreated equals the window start, boundary inclusive,
and whose IsCreated is 0 makes the aggregated IsCreated defect count at
least 1 and the corresponding message appear; a dataset whose records
all have IsCreated equal to 1 yields no IsCreated defect of any count;
and with exactly one violating row the reported message is Found 1
invalid IsCreated values. -/
theorem daily_isCreated_boundary (ws we : Int) (raw : DataFrame) (m : ManifestRow)
    (hc : "IsCreated" ∈ raw.cols) (hd : "DateCreated" ∈ raw.cols) :
    (∀ r ∈ raw.rows, getCell r "DateCreated" = ws → getCell r "IsCreated" = 0 →
       1 ≤ (invalid_created_daily ws raw.rows).length ∧
       isCreatedMsg (invalid_created_daily ws raw.rows).length ∈
         (validate_daily_file ws we raw m).2) ∧
    ((∀ r ∈ raw.rows, getCell r "IsCreated" = 1) →
       ∀ n, isCreatedMsg n ∉ (validate_daily_file ws we raw m).2) ∧
    ((invalid_created_daily ws raw.rows).length = 1 →
       "Found 1 invalid IsCreated values" ∈ (validate_daily_file ws we raw m).2) := by
  have hmemposn : ∀ hk : (invalid_created_daily ws raw.rows).length ≠ 0,
      isCreatedMsg (invalid_created_daily ws raw.rows).length ∈
        (validate_daily_file ws we raw m).2 := by
    intro hk
    rw [mem_daily_iff]
    right; right; left
    rw [if_pos ⟨hc, hd⟩, if_pos hk]
    exact List.mem_singleton.mpr rfl
  refine ⟨?_, ?_, ?_⟩
  · intro r hr hdc hic
    have hmem : r ∈ invalid_created_daily ws raw.rows := by
      rw [invalid_created_daily, List.mem_filter]
      refine ⟨hr, ?_⟩
      simp [hdc, hic]
    have hpos : 0 < (invalid_created_daily ws raw.rows).length :=
      List.length_pos.mpr (List.ne_nil_of_mem hmem)
    exact ⟨hpos, hmemposn (by omega)⟩
  · intro hall n hmem
    have hnil : invalid_created_daily ws raw.rows = [] := by
      rw [invalid_created_daily, List.filter_eq_nil_iff]
      intro r hr
      simp [hall r hr]
    rw [mem_daily_iff] at hmem
    rcases hmem with h | h | h | h | h
    · exact absurd h (not_mem_ite_cons _ ((rowCountMsg_ne_isCreatedMsg _ _ _).symm))
    · exact absurd h (not_mem_ite_nil _ ((noIdMsg_ne_isCreatedMsg _).symm))
    · rw [if_pos ⟨hc, hd⟩, if_neg (by simp [hnil])] at h
      exact absurd h (List.not_mem_nil _)
    · exact absurd h (not_mem_ite_ite _ _ (isCreatedMsg_ne_isModifiedMsg _ _))
    · exact absurd h (not_mem_ite_ite _ _ (isCreatedMsg_ne_dateWindowMsg _ _))
  · intro hk
    have h := hmemposn (by omega)
    rw [hk] at h
    exact h

theorem daily_isCreated_boundary_witness :
    "Found 1 invalid IsCreated values" ∈
      (validate_daily_file 0 10 ⟨["IsCreated", "DateCreated", "ID"],
        [[("IsCreated", 0), ("DateCreated", 0)]]⟩ ⟨"t", 1, 0, 10⟩).2 :=
  (daily_isCreated_boundary 0 10 ⟨["IsCreated", "DateCreated", "ID"],
    [[("IsCreated", 0), ("DateCreated", 0)]]⟩ ⟨"t", 1, 0, 10⟩
    (by decide) (by decide)).2.2 (by decide)

theorem valid_iff_nil (l : List String) : (l.length == 0) = true ↔ l = [] := by
  simp [List.length_eq_zero]

/-- Claim C8: in both modes the boolean of the outcome is true exactly
when the message list is empty, and the message list decomposes as the
row-count component followed by the messages of the run on a matching
row count, so a row-count mismatch does not short-circuit the remaining
rules and the defects appear in rule-evaluation order. -/
theorem outcome_invariants (ws we : Int) (raw : DataFrame) (m : ManifestRow) :
    ((validate_daily_file ws we raw m).1 = true ↔ (validate_daily_file ws we raw m).2 = []) ∧
    ((validate_full_file raw m).1 = true ↔ (validate_full_file raw m).2 = []) ∧
    ((validate_daily_file ws we raw m).2 =
      (if raw.rows.length ≠ m.row_count then
        [rowCountMsg m.row_count raw.rows.length] else []) ++
      (validate_daily_file ws we raw ⟨m.table_name, raw.rows.length,
        m.time_start, m.time_end⟩).2) ∧
    ((validate_full_file raw m).2 =
      (if raw.rows.length ≠ m.row_count then
        [rowCountMsg m.row_count raw.rows.length] else []) ++
      (validate_full_file raw ⟨m.table_name, raw.rows.length,
        m.time_start, m.time_end⟩).2) := by
  refine ⟨?_, ?_, ?_, ?_⟩
  · exact valid_iff_nil ((validate_daily_file ws we raw m).2)
  · exact valid_iff_nil ((validate_full_file raw m).2)
  · simp [validate_daily_file, List.append_assoc]
  · simp [validate_full_file, List.append_assoc]

end DumpApp
